/-
Verification of the ping connectivity checker repository
(ping_checker.py, analyze_logs.py, ping_daemon.py).

The Python sources are shallowly embedded as executable Lean definitions:
  * string manipulation primitives (Python str.split, str.strip, substring
    containment, re.sub comment stripping, int()) are modelled as structural
    functions over `List Char`;
  * the subprocess call made by `ping_host` is abstracted as a
    `SubprocOutcome` value (completed with a return code and stdout,
    timed out, or raised an exception) supplied by the environment;
  * Python dicts are modelled as association lists, Python sets as
    deduplicated lists (membership is the meaningful structure; CPython's
    set iteration order is unspecified).
-/
import Mathlib

/-! ### Python string primitives, modelled structurally over `List Char` -/

/-- Tests whether the first list is an initial segment of the second
(used to model Python substring search). -/
def matchesAt : List Char → List Char → Bool
  | [], _ => true
  | _ :: _, [] => false
  | a :: as, b :: bs => a = b && matchesAt as bs

/-- Models locating the first occurrence of a (nonempty) separator substring:
returns the characters before the first occurrence and the characters after
it, or `none` when the separator does not occur. -/
def breakOnSub (sep : List Char) : List Char → Option (List Char × List Char)
  | [] => none
  | c :: cs =>
    if matchesAt sep (c :: cs) then some ([], (c :: cs).drop sep.length)
    else
      match breakOnSub sep cs with
      | some (pre, post) => some (c :: pre, post)
      | none => none

/-- Models the Python test `sep in line` for a nonempty separator. -/
def containsSub (sep l : List Char) : Bool := (breakOnSub sep l).isSome

/-- Models `line.split(sep)[1]`: the segment between the first occurrence of
`sep` and its second occurrence (or the end of the line).  Only meaningful
under the guard `containsSub sep l`, mirroring the source's `if sep in line`
check; returns `[]` otherwise. -/
def secondSegment (sep l : List Char) : List Char :=
  match breakOnSub sep l with
  | none => []
  | some (_, post) =>
    match breakOnSub sep post with
    | some (pre2, _) => pre2
    | none => post

/-- Models `s.split()[0]` (whitespace tokenisation, first token), returning
`none` exactly when Python would raise `IndexError` (no token at all). -/
def firstToken (l : List Char) : Option (List Char) :=
  match l.dropWhile Char.isWhitespace with
  | [] => none
  | c :: cs => some (c :: cs.takeWhile (fun d => !d.isWhitespace))

/-- Accumulator-based whitespace tokeniser (Python `s.split()`). -/
def wsTokensGo : List Char → List Char → List (List Char)
  | [], acc => match acc with | [] => [] | _ => [acc.reverse]
  | c :: cs, acc =>
    if c.isWhitespace then
      match acc with
      | [] => wsTokensGo cs []
      | _ => acc.reverse :: wsTokensGo cs []
    else wsTokensGo cs (c :: acc)

/-- Models Python `s.split()`: whitespace-separated tokens, empties dropped. -/
def wsTokens (l : List Char) : List (List Char) := wsTokensGo l []

/-- Accumulator-based newline splitter (Python `s.split(chr(10))`). -/
def splitNlGo : List Char → List Char → List (List Char)
  | [], acc => [acc.reverse]
  | c :: cs, acc =>
    if c = '\n' then acc.reverse :: splitNlGo cs []
    else splitNlGo cs (c :: acc)

/-- Models Python `s.split` on a newline separator, keeping empty segments. -/
def splitNl (l : List Char) : List (List Char) := splitNlGo l []

/-- Models Python `s.strip()` on the character list: drop whitespace from
both ends. -/
def pyStripChars (l : List Char) : List Char :=
  ((l.dropWhile Char.isWhitespace).reverse.dropWhile Char.isWhitespace).reverse

/-- Models Python `s.strip()`. -/
def pyStrip (s : String) : String := String.mk (pyStripChars s.data)

/-- Models `re.sub(r"#.*$", "", line)` from `read_ip_list`: everything from
the first `#` character to the end of the line is removed.  (The regex `.`
does not cross the line's single trailing newline, but that newline is
removed by the subsequent `strip`, so dropping it here is equivalent.) -/
def stripCommentChars : List Char → List Char
  | [] => []
  | c :: cs => if c = '#' then [] else c :: stripCommentChars cs

/-- Accumulating digit parser for the integer models below. -/
def digitsValGo : List Char → Nat → Option Nat
  | [], acc => some acc
  | c :: cs, acc =>
    if c.isDigit then digitsValGo cs (acc * 10 + (c.toNat - 48)) else none

/-- Models Python `int(s)` on decimal strings: optional surrounding
whitespace, optional sign, at least one digit; `none` models the
`ValueError` raised on anything else. -/
def pyInt : String → Option Int
  | s =>
    match pyStripChars s.data with
    | [] => none
    | c :: cs =>
      if c = '-' then
        match cs with
        | [] => none
        | _ => (digitsValGo cs 0).map (fun n => -(n : Int))
      else if c = '+' then
        match cs with
        | [] => none
        | _ => (digitsValGo cs 0).map (fun n => (n : Int))
      else (digitsValGo (c :: cs) 0).map (fun n => (n : Int))

/-! ### ping_checker.py — `ping_host` (lines 25..69) -/

/-- Outcome of the `subprocess.run` call inside `ping_host`, supplied by the
environment: the ping process completed with a return code and captured
stdout, the outer `timeout=timeout+2` expired (`subprocess.TimeoutExpired`),
or some other exception was raised with the given message. -/
inductive SubprocOutcome where
  | completed (returncode : Int) (stdout : String)
  | timedout
  | raised (msg : String)

/-- Command-line construction of `ping_host` (lines 39..44): OS-specific
ping invocation. -/
def pingCmd (isWindows : Bool) (count timeout : Nat) (ip : String) : List String :=
  if isWindows then
    ["ping", "-n", toString count, "-w", toString (timeout * 1000), ip]
  else
    ["ping", "-c", toString count, "-W", toString timeout, ip]

/-- Result of scanning the stdout lines for a latency figure
(the `for line in lines` loop of `ping_host`, lines 50..62). -/
inductive ScanRes where
  | found (detail : String)
  | indexError
  | nofind

/-- Models the stdout-scanning loop of `ping_host`: on Unix a line containing
`time=` yields the first whitespace token after it with `ms` appended; on
Windows the line must contain both `time=` and `ms` and the token is used
as-is.  `indexError` models the `IndexError` Python raises (and `ping_host`
catches) when `split()[0]` is applied to an empty token list. -/
def scanLines (isWindows : Bool) : List (List Char) → ScanRes
  | [] => ScanRes.nofind
  | l :: ls =>
    if isWindows then
      if containsSub "time=".data l && containsSub "ms".data l then
        match firstToken (secondSegment "time=".data l) with
        | some tok => ScanRes.found (String.mk tok)
        | none => ScanRes.indexError
      else scanLines isWindows ls
    else
      if containsSub "time=".data l then
        match firstToken (secondSegment "time=".data l) with
        | some tok => ScanRes.found (String.mk tok ++ "ms")
        | none => ScanRes.indexError
      else scanLines isWindows ls

/-- Embeds `ping_host` (ping_checker.py, lines 25..69).  The `timeout` and
`count` parameters only shape the spawned command (see `pingCmd`); the
result is a `(ip_address, success, response_time)` triple.  Every raise
inside the `try` block is caught: `subprocess.TimeoutExpired` becomes
`(ip, False, "Timeout")` and any other exception `e` becomes
`(ip, False, "Error: " + str(e))`; the `IndexError` possible in the stdout
scan therefore surfaces as an `"Error: list index out of range"` detail. -/
def ping_host (ip : String) (isWindows : Bool) (timeout count : Nat)
    (outcome : SubprocOutcome) : String × Bool × String :=
  match outcome with
  | SubprocOutcome.timedout => (ip, false, "Timeout")
  | SubprocOutcome.raised m => (ip, false, "Error: " ++ m)
  | SubprocOutcome.completed rc stdout =>
    if rc = 0 then
      match scanLines isWindows (splitNl stdout.data) with
      | ScanRes.found d => (ip, true, d)
      | ScanRes.indexError => (ip, false, "Error: list index out of range")
      | ScanRes.nofind => (ip, true, "N/A")
    else (ip, false, "No response")

/-! ### ping_checker.py — `read_ip_list` (lines 72..97) -/

/-- Per-line cleaning step of `read_ip_list` (line 88):
`re.sub(r"#.*$", "", line).strip()`. -/
def cleanLine (line : String) : String :=
  String.mk (pyStripChars (stripCommentChars line.data))

/-- Embeds `read_ip_list` (ping_checker.py, lines 82..91): each line is
comment-stripped and trimmed, empty results are discarded, and the
survivors are collected into a Python set, returned as a list.  The set is
modelled as a deduplicated list (CPython's set iteration order is
unspecified, so any duplicate-free listing is a faithful image). -/
def read_ip_list (lines : List String) : List String :=
  ((lines.map cleanLine).filter (fun l => !(l == ""))).dedup

/-! ### ping_checker.py — the batch loop and exit code of `main`
(lines 221..237 and 274) -/

/-- Embeds the executor loop of `main` (lines 221..237): one `ping_host`
task is submitted per element of `ip_list` and every future is harvested
exactly once by `as_completed`.  Completion order is unspecified, so the
results are modelled in submission order; every claim checked below is
order-insensitive.  The per-host probe outcome is supplied by the `oracle`
environment. -/
def runBatch (ips : List String) (isWindows : Bool) (timeout count : Nat)
    (oracle : String → SubprocOutcome) : List (String × Bool × String) :=
  ips.map (fun ip => ping_host ip isWindows timeout count (oracle ip))

/-- Embeds the exit code of `main` (line 274):
`sys.exit(1 if failed > 0 else 0)`, where `failed` counts the harvested
results whose `success` component is false. -/
def exitCode (results : List (String × Bool × String)) : Nat :=
  if 0 < results.countP (fun r => !r.2.1) then 1 else 0

/-! ### analyze_logs.py — `categorize_ips` (lines 72..100) and
`write_analysis_files` rate computation (lines 141..146) -/

/-- Python dict from IP address to an observation count, modelled as an
association list (first binding wins, as dict keys are unique). -/
def Tally : Type := List (String × Nat)

/-- Models Python `d.get(ip, 0)`. -/
def pyGet (d : Tally) (ip : String) : Nat :=
  match List.find? (fun p => p.1 == ip) d with
  | some p => p.2
  | none => 0

/-- Models `set(success_counts.keys()) | set(failure_counts.keys())`
(line 83), the iteration domain of the categorisation loop. -/
def allIps (success_counts failure_counts : Tally) : List String :=
  ((success_counts.map Prod.fst) ++ (failure_counts.map Prod.fst)).dedup

/-- Embeds `categorize_ips` (analyze_logs.py, lines 72..100): every IP seen
in either tally is placed in `never_responded` when it has zero successes
and positive failures, in `always_responded` when it has zero failures and
positive successes, and in `sometimes_responded` when it has both; the
three result sets are modelled as filtered listings of the key union. -/
def categorize_ips (success_counts failure_counts : Tally) :
    List String × List String × List String :=
  let all := allIps success_counts failure_counts
  (all.filter (fun ip =>
      pyGet success_counts ip == 0 && decide (0 < pyGet failure_counts ip)),
   all.filter (fun ip =>
      pyGet failure_counts ip == 0 && decide (0 < pyGet success_counts ip)),
   all.filter (fun ip =>
      decide (0 < pyGet success_counts ip) && decide (0 < pyGet failure_counts ip)))

/-- Embeds the success-rate computation of `write_analysis_files`
(line 145): `(successes / total * 100) if total > 0 else 0`, in exact
rational arithmetic. -/
def success_rate (successes failures : Nat) : ℚ :=
  let total := successes + failures
  if 0 < total then (successes : ℚ) / (total : ℚ) * 100 else 0

/-- Rounding to one decimal place, modelling the `:.1f` format used when the
rate is written to the sometimes-responded report (line 146). -/
def roundTo1 (q : ℚ) : ℚ := ((round (q * 10) : ℤ) : ℚ) / 10

/-! ### ping_daemon.py — `add_jobs_from_config` (lines 151..209) -/

/-- One section of the configparser configuration file: a section name and
its key/value entries (configparser guarantees unique keys per section). -/
structure ConfSection where
  name : String
  entries : List (String × String)

/-- One scheduled job as registered by `add_jobs_from_config`: the job name
(section name with the `job:` marker removed), the two required parameters
and the three optional integer parameters with their defaults. -/
structure JobSpec where
  name : String
  ip_file : String
  schedule : String
  timeout : Int
  count : Int
  workers : Int
deriving DecidableEq

/-- Models `key in section` / `section[key]`: first binding of the key in
the section's entry list. -/
def lookupEntry (es : List (String × String)) (k : String) : Option String :=
  match List.find? (fun p => p.1 == k) es with
  | some p => some p.2
  | none => none

/-- Models `section.getint(key, default)` (ping_daemon.py lines 170..172):
the default when the key is absent, the parsed integer when the value
parses, and `none` for the `ValueError` that `getint` raises (uncaught by
the surrounding code) on a non-integer value. -/
def getintD (es : List (String × String)) (k : String) (d : Int) : Option Int :=
  match lookupEntry es k with
  | none => some d
  | some v => pyInt v

/-- Abstraction of `CronTrigger(minute, hour, day, month, day_of_week)`
plus `scheduler.add_job` (APScheduler): the environment says whether
constructing and registering the trigger for the five cron fields succeeds
or raises. -/
abbrev CronOk := String → String → String → String → String → Bool

/-- Outcome of processing a single configuration section inside the
`for section_name in config.sections()` loop of `add_jobs_from_config`. -/
inductive StepRes where
  | skip
  | added (j : JobSpec)
  | diag (msg : String)
  | crash (msg : String)
deriving DecidableEq

/-- Tests whether a step outcome is an uncaught exception. -/
def StepRes.isCrash : StepRes → Bool
  | StepRes.crash _ => true
  | _ => false

/-- Embeds the body of the section loop of `add_jobs_from_config`
(ping_daemon.py lines 156..203).  Sections not named `job:...` are skipped;
a job section missing `ip_file` or `schedule` is rejected with a
diagnostic and processing continues; a malformed optional integer makes
`getint` raise `ValueError` outside any `try`, crashing the load; a
schedule that does not split into exactly 5 whitespace-separated fields is
rejected with a diagnostic; a failure of trigger construction or job
registration (`except Exception`, line 202) is rejected with a diagnostic.
Diagnostic texts follow the source's log messages (quote characters around
interpolated values are omitted). -/
def sectionStep (cronOk : CronOk) (sec : ConfSection) : StepRes :=
  if matchesAt "job:".data sec.name.data then
    let jn := String.mk (sec.name.data.drop 4)
    match lookupEntry sec.entries "ip_file", lookupEntry sec.entries "schedule" with
    | some ipf, some sched =>
      match getintD sec.entries "timeout" 3, getintD sec.entries "count" 1,
            getintD sec.entries "workers" 10 with
      | some t, some c, some w =>
        let parts := wsTokens sched.data
        if parts.length ≠ 5 then
          StepRes.diag ("Job " ++ jn ++ ": Invalid cron schedule " ++ sched
            ++ " (expected 5 fields)")
        else if cronOk (String.mk (parts.getD 0 [])) (String.mk (parts.getD 1 []))
            (String.mk (parts.getD 2 [])) (String.mk (parts.getD 3 []))
            (String.mk (parts.getD 4 [])) then
          StepRes.added ⟨jn, ipf, sched, t, c, w⟩
        else StepRes.diag ("Error adding job " ++ jn)
      | _, _, _ => StepRes.crash "ValueError: invalid literal for int()"
    | _, _ =>
      StepRes.diag ("Job " ++ jn ++ " missing required parameters (ip_file, schedule)")
  else StepRes.skip

/-- The jobs successfully registered over the configuration sections, and
the diagnostics emitted along the way; `Except.error` models an uncaught
exception escaping the loop. -/
def addJobsLoop (cronOk : CronOk) : List ConfSection → Except String (List JobSpec × List String)
  | [] => Except.ok ([], [])
  | sec :: rest =>
    match sectionStep cronOk sec with
    | StepRes.crash m => Except.error m
    | StepRes.skip => addJobsLoop cronOk rest
    | StepRes.added j =>
      match addJobsLoop cronOk rest with
      | Except.error m => Except.error m
      | Except.ok (js, ds) => Except.ok (j :: js, ds)
    | StepRes.diag d =>
      match addJobsLoop cronOk rest with
      | Except.error m => Except.error m
      | Except.ok (js, ds) => Except.ok (js, d :: ds)

/-- Observable outcome of the daemon's job-loading phase. -/
inductive LoadOutcome where
  | started (jobs : List JobSpec) (diags : List String)
  | exitedNonzero (code : Nat) (diags : List String)
  | crashed (msg : String)
deriving DecidableEq

/-- Embeds `add_jobs_from_config` (ping_daemon.py lines 151..209) end to
end: the section loop accumulates registered jobs and diagnostics, and
`sys.exit(1)` is called when `job_count == 0` (lines 205..207); otherwise
the daemon proceeds with the loaded jobs. -/
def add_jobs_from_config (cronOk : CronOk) (sections : List ConfSection) : LoadOutcome :=
  match addJobsLoop cronOk sections with
  | Except.error m => LoadOutcome.crashed m
  | Except.ok (js, ds) =>
    if js.length = 0 then LoadOutcome.exitedNonzero 1 ds
    else LoadOutcome.started js ds

/-- The job registered for a section, when any. -/
def stepJob (cronOk : CronOk) (sec : ConfSection) : Option JobSpec :=
  match sectionStep cronOk sec with
  | StepRes.added j => some j
  | _ => none

/-- The diagnostic emitted for a section, when any. -/
def stepDiag (cronOk : CronOk) (sec : ConfSection) : Option String :=
  match sectionStep cronOk sec with
  | StepRes.diag d => some d
  | _ => none

/-! ### Concrete inputs used by the witnesses -/

/-- Example success tallies from the specification's worked example. -/
def exSucc : Tally := [("A", 0), ("B", 5), ("C", 2)]

/-- Example failure tallies from the specification's worked example. -/
def exFail : Tally := [("A", 3), ("B", 0), ("C", 2)]

/-- Example host-file lines: a commented entry, a blank line and a
duplicate. -/
def exLines : List String := ["10.0.0.1  # gateway", "  ", "10.0.0.2", "10.0.0.1"]

/-- Example probe environment in which every primitive call times out. -/
def exOracle : String → SubprocOutcome := fun _ => SubprocOutcome.timedout

/-- Example trigger environment in which every cron registration succeeds. -/
def exCronOk : CronOk := fun _ _ _ _ _ => true

/-- Example configuration: one valid job, one job missing its required
`schedule` parameter, and one non-job section. -/
def exSections : List ConfSection :=
  [⟨"job:good", [("ip_file", "ips.txt"), ("schedule", "* * * * *")]⟩,
   ⟨"job:bad", [("ip_file", "ips.txt")]⟩,
   ⟨"general", []⟩]


/-! ### Helper lemmas -/

/-- Whatever the probe outcome, `ping_host` reports the submitted host
in the first component. -/
theorem ping_host_fst (ip : String) (isWin : Bool) (t c : Nat)
    (o : SubprocOutcome) : (ping_host ip isWin t c o).1 = ip := by
  cases o with
  | timedout => rfl
  | raised m => rfl
  | completed rc s =>
    simp only [ping_host]
    by_cases h : rc = 0
    · simp only [if_pos h]
      cases scanLines isWin (splitNl s.data) <;> rfl
    · simp only [if_neg h]

/-- A positive tally value forces the IP to be among the dict's keys. -/
theorem pyGet_pos_mem (d : Tally) (ip : String) (h : 0 < pyGet d ip) :
    ip ∈ d.map Prod.fst := by
  induction d with
  | nil => simp [pyGet, List.find?] at h
  | cons p ps ih =>
    by_cases hp : p.1 = ip
    · simp [hp]
    · have hb : (p.1 == ip) = false := beq_eq_false_iff_ne.mpr hp
      have : pyGet (p :: ps) ip = pyGet ps ip := by
        simp [pyGet, List.find?, hb]
      rw [this] at h
      simp [ih h]

/-- C1: the three sets produced by `categorize_ips` are pairwise disjoint
and their union is exactly the set of hosts whose total observation count
is positive; a host with no observations is in none of them. -/
theorem claim_c1_classifier_partition (s f : Tally) (ip : String) :
    (ip ∈ (categorize_ips s f).1 →
      ip ∉ (categorize_ips s f).2.1 ∧ ip ∉ (categorize_ips s f).2.2)
    ∧ (ip ∈ (categorize_ips s f).2.1 → ip ∉ (categorize_ips s f).2.2)
    ∧ ((ip ∈ (categorize_ips s f).1 ∨ ip ∈ (categorize_ips s f).2.1 ∨
        ip ∈ (categorize_ips s f).2.2)
        ↔ 0 < pyGet s ip + pyGet f ip) := by
  have hs := pyGet_pos_mem s ip
  have hf := pyGet_pos_mem f ip
  simp only [categorize_ips, allIps, List.mem_filter, List.mem_dedup, List.mem_append,
    Bool.and_eq_true, beq_iff_eq, decide_eq_true_eq]
  refine ⟨?_, ?_, ?_⟩
  · rintro ⟨hm, h1, h2⟩
    constructor
    · rintro ⟨hm2, h3, h4⟩; omega
    · rintro ⟨hm2, h3, h4⟩; omega
  · rintro ⟨hm, h1, h2⟩ ⟨hm2, h3, h4⟩; omega
  · constructor
    · rintro (⟨hm, h1, h2⟩ | ⟨hm, h1, h2⟩ | ⟨hm, h1, h2⟩) <;> omega
    · intro h
      by_cases hs0 : 0 < pyGet s ip
      · by_cases hf0 : 0 < pyGet f ip
        · exact Or.inr (Or.inr ⟨Or.inl (hs hs0), hs0, hf0⟩)
        · exact Or.inr (Or.inl ⟨Or.inl (hs hs0), by omega, hs0⟩)
      · have hf0 : 0 < pyGet f ip := by omega
        exact Or.inl ⟨Or.inr (hf hf0), by omega, hf0⟩

/-- C9: `read_ip_list` returns, without duplicates and without the empty
string, exactly the hosts obtained by stripping comments and whitespace
from each line and discarding the lines that become empty. -/
theorem claim_c9_read_ip_list (lines : List String) :
    (read_ip_list lines).Nodup
    ∧ (∀ h : String, h ∈ read_ip_list lines ↔ h ≠ "" ∧ ∃ l ∈ lines, cleanLine l = h)
    ∧ "" ∉ read_ip_list lines := by
  refine ⟨List.nodup_dedup _, ?_, ?_⟩
  · intro h
    simp only [read_ip_list, List.mem_dedup, List.mem_filter, List.mem_map,
      Bool.not_eq_true', beq_eq_false_iff_ne]
    constructor
    · rintro ⟨⟨l, hl, rfl⟩, hne⟩
      exact ⟨hne, l, hl, rfl⟩
    · rintro ⟨hne, l, hl, rfl⟩
      exact ⟨⟨l, hl, rfl⟩, hne⟩
  · intro hmem
    simp only [read_ip_list, List.mem_dedup, List.mem_filter,
      Bool.not_eq_true', beq_eq_false_iff_ne] at hmem
    exact hmem.2 rfl

/-- C2: one batch run produces exactly one result per distinct host of the
deduplicated input set, whatever each probe's outcome is: the result list
has exactly as many entries as there are distinct hosts, and each host
appears exactly once among the reported hosts. -/
theorem claim_c2_one_result_per_host (lines : List String) (isWin : Bool)
    (t c : Nat) (oracle : String → SubprocOutcome) :
    (runBatch (read_ip_list lines) isWin t c oracle).length
      = (read_ip_list lines).length
    ∧ ∀ h : String,
        ((runBatch (read_ip_list lines) isWin t c oracle).map (fun r => r.1)).count h
          = if h ∈ read_ip_list lines then 1 else 0 := by
  have hmap : (runBatch (read_ip_list lines) isWin t c oracle).map (fun r => r.1)
      = read_ip_list lines := by
    simp only [runBatch, List.map_map]
    have hfun : ((fun r : String × Bool × String => r.1) ∘
        fun ip => ping_host ip isWin t c (oracle ip)) = fun ip => ip := by
      funext ip
      exact ping_host_fst ip isWin t c (oracle ip)
    rw [hfun]
    exact List.map_id _
  refine ⟨by simp [runBatch], ?_⟩
  intro h
  rw [hmap]
  exact List.count_eq_of_nodup (List.nodup_dedup _)

/-- C4: the one-shot invocation exits with code 0 exactly when every host
of the batch was reachable and with code 1 exactly when at least one host
was unreachable. -/
theorem claim_c4_exit_code (lines : List String) (isWin : Bool) (t c : Nat)
    (oracle : String → SubprocOutcome) :
    (exitCode (runBatch (read_ip_list lines) isWin t c oracle) = 0 ↔
      ∀ ip ∈ read_ip_list lines, (ping_host ip isWin t c (oracle ip)).2.1 = true)
    ∧ (exitCode (runBatch (read_ip_list lines) isWin t c oracle) = 1 ↔
      ∃ ip ∈ read_ip_list lines, (ping_host ip isWin t c (oracle ip)).2.1 = false) := by
  have key : ∀ rs : List (String × Bool × String),
      (exitCode rs = 0 ↔ ∀ r ∈ rs, r.2.1 = true) ∧
      (exitCode rs = 1 ↔ ∃ r ∈ rs, r.2.1 = false) := by
    intro rs
    unfold exitCode
    by_cases h : 0 < rs.countP (fun r => !r.2.1)
    · rw [if_pos h]
      obtain ⟨a, ha, hpa⟩ := List.countP_pos_iff.mp h
      rw [Bool.not_eq_true'] at hpa
      constructor
      · constructor
        · intro habs
          exact absurd habs one_ne_zero
        · intro hall
          exact absurd (hall a ha) (by simp [hpa])
      · exact iff_of_true rfl ⟨a, ha, hpa⟩
    · rw [if_neg h]
      have h0 : rs.countP (fun r => !r.2.1) = 0 := by omega
      have hall := List.countP_eq_zero.mp h0
      constructor
      · refine iff_of_true rfl ?_
        intro r hr
        have := hall r hr
        simpa using this
      · constructor
        · intro habs
          exact absurd habs zero_ne_one
        · rintro ⟨r, hr, hfalse⟩
          exact absurd (by simp [hfalse] : (!r.2.1) = true) (hall r hr)
  obtain ⟨k1, k2⟩ := key (runBatch (read_ip_list lines) isWin t c oracle)
  constructor
  · rw [k1]
    constructor
    · intro hall ip hip
      exact hall (ping_host ip isWin t c (oracle ip))
        (by simp only [runBatch]; exact List.mem_map.mpr ⟨ip, hip, rfl⟩)
    · intro hip r hr
      simp only [runBatch] at hr
      obtain ⟨ip, hipl, rfl⟩ := List.mem_map.mp hr
      exact hip ip hipl
  · rw [k2]
    constructor
    · rintro ⟨r, hr, hfalse⟩
      simp only [runBatch] at hr
      obtain ⟨ip, hipl, rfl⟩ := List.mem_map.mp hr
      exact ⟨ip, hipl, hfalse⟩
    · rintro ⟨ip, hipl, hfalse⟩
      exact ⟨ping_host ip isWin t c (oracle ip),
        (by simp only [runBatch]; exact List.mem_map.mpr ⟨ip, hipl, rfl⟩), hfalse⟩

/-- C3: a probe whose primitive call times out is recorded as an
unreachable result with detail `Timeout`, and a probe whose primitive call
raises is recorded as an unreachable result with detail `Error: ...`; in
the embedding `ping_host` is a total function, so neither failure
propagates out of the probe call. -/
theorem claim_c3_probe_failure_recovered (ip : String) (isWin : Bool) (t c : Nat) :
    ping_host ip isWin t c SubprocOutcome.timedout = (ip, false, "Timeout")
    ∧ ∀ m : String,
        ping_host ip isWin t c (SubprocOutcome.raised m) = (ip, false, "Error: " ++ m) :=
  ⟨rfl, fun _ => rfl⟩

/-- C10: for every host, parameter choice and primitive outcome, the probe
wrapper returns a triple whose first component is exactly the submitted
host string (and is total by construction). -/
theorem claim_c10_probe_reports_submitted_host (ip : String) (isWin : Bool)
    (t c : Nat) (o : SubprocOutcome) :
    (ping_host ip isWin t c o).1 = ip :=
  ping_host_fst ip isWin t c o

/-- C5: every host of the sometimes-responded set has a positive total, so
the rate division never sees a zero denominator and equals
successes/(successes+failures)*100; on the spec's example tallies the
classifier yields never=A, always=B, sometimes=C, and the one-decimal
rounding of host C's rate is 50. -/
theorem claim_c5_success_rate (s f : Tally) (ip : String)
    (h : ip ∈ (categorize_ips s f).2.2) :
    (0 < pyGet s ip + pyGet f ip ∧
      success_rate (pyGet s ip) (pyGet f ip)
        = (pyGet s ip : ℚ) / ((pyGet s ip : ℚ) + (pyGet f ip : ℚ)) * 100)
    ∧ categorize_ips [("A", 0), ("B", 5), ("C", 2)] [("A", 3), ("B", 0), ("C", 2)]
        = (["A"], ["B"], ["C"])
    ∧ roundTo1 (success_rate 2 2) = 50 := by
  refine ⟨?_, by decide, ?_⟩
  · have hmem : 0 < pyGet s ip ∧ 0 < pyGet f ip := by
      simp only [categorize_ips, allIps, List.mem_filter, Bool.and_eq_true,
        decide_eq_true_eq] at h
      exact ⟨h.2.1, h.2.2⟩
    refine ⟨by omega, ?_⟩
    unfold success_rate
    rw [if_pos (by omega)]
    push_cast
    ring
  · have hval : success_rate 2 2 = 50 := by norm_num [success_rate]
    rw [roundTo1, hval]
    norm_num

/-- When no section makes `getint` raise, the load loop collects exactly
the per-section jobs and diagnostics. -/
theorem addJobsLoop_ok (cronOk : CronOk) (sections : List ConfSection)
    (h : ∀ sec ∈ sections, (sectionStep cronOk sec).isCrash = false) :
    addJobsLoop cronOk sections =
      Except.ok (sections.filterMap (stepJob cronOk),
        sections.filterMap (stepDiag cronOk)) := by
  induction sections with
  | nil => rfl
  | cons sec rest ih =>
    have hsec := h sec (List.mem_cons_self _ _)
    have hrest : ∀ s ∈ rest, (sectionStep cronOk s).isCrash = false :=
      fun s hs => h s (List.mem_cons_of_mem _ hs)
    have ihr := ih hrest
    cases hstep : sectionStep cronOk sec with
    | crash m =>
      rw [hstep] at hsec
      simp [StepRes.isCrash] at hsec
    | skip =>
      simp [addJobsLoop, hstep, ihr, List.filterMap_cons, stepJob, stepDiag]
    | added j =>
      simp [addJobsLoop, hstep, ihr, List.filterMap_cons, stepJob, stepDiag]
    | diag d =>
      simp [addJobsLoop, hstep, ihr, List.filterMap_cons, stepJob, stepDiag]

/-- C8: when no job section carries a malformed optional integer (so
`getint` never raises), loading the configuration registers exactly the
valid jobs and emits one diagnostic per rejected section, and the daemon
exits with code 1 when no valid job was loaded; a job section missing a
required parameter, or whose schedule does not have exactly 5 fields, is
rejected with its diagnostic and contributes no job. -/
theorem claim_c8_config_load (cronOk : CronOk) (sections : List ConfSection)
    (h : ∀ sec ∈ sections, (sectionStep cronOk sec).isCrash = false) :
    (add_jobs_from_config cronOk sections =
      if (sections.filterMap (stepJob cronOk)).length = 0 then
        LoadOutcome.exitedNonzero 1 (sections.filterMap (stepDiag cronOk))
      else
        LoadOutcome.started (sections.filterMap (stepJob cronOk))
          (sections.filterMap (stepDiag cronOk)))
    ∧ (∀ sec : ConfSection, matchesAt "job:".data sec.name.data = true →
        (lookupEntry sec.entries "ip_file" = none ∨
         lookupEntry sec.entries "schedule" = none) →
        stepJob cronOk sec = none ∧
        stepDiag cronOk sec = some ("Job " ++ String.mk (sec.name.data.drop 4)
          ++ " missing required parameters (ip_file, schedule)"))
    ∧ (∀ sec : ConfSection, ∀ ipf sched : String,
        matchesAt "job:".data sec.name.data = true →
        lookupEntry sec.entries "ip_file" = some ipf →
        lookupEntry sec.entries "schedule" = some sched →
        (sectionStep cronOk sec).isCrash = false →
        (wsTokens sched.data).length ≠ 5 →
        stepJob cronOk sec = none ∧
        stepDiag cronOk sec = some ("Job " ++ String.mk (sec.name.data.drop 4)
          ++ ": Invalid cron schedule " ++ sched ++ " (expected 5 fields)")) := by
  refine ⟨?_, ?_, ?_⟩
  · rw [add_jobs_from_config, addJobsLoop_ok cronOk sections h]
  · intro sec hjob hmiss
    cases hip : lookupEntry sec.entries "ip_file" with
    | none => simp [stepJob, stepDiag, sectionStep, hjob, hip]
    | some v =>
      cases hsch : lookupEntry sec.entries "schedule" with
      | none => simp [stepJob, stepDiag, sectionStep, hjob, hip, hsch]
      | some w =>
        rcases hmiss with hm | hm
        · rw [hip] at hm
          exact Option.noConfusion hm
        · rw [hsch] at hm
          exact Option.noConfusion hm
  · intro sec ipf sched hjob hip hsch hnc h5
    cases ht : getintD sec.entries "timeout" 3 with
    | none =>
      rw [sectionStep] at hnc
      simp [hjob, hip, hsch, ht, StepRes.isCrash] at hnc
    | some tv =>
      cases hc : getintD sec.entries "count" 1 with
      | none =>
        rw [sectionStep] at hnc
        simp [hjob, hip, hsch, ht, hc, StepRes.isCrash] at hnc
      | some cv =>
        cases hw : getintD sec.entries "workers" 10 with
        | none =>
          rw [sectionStep] at hnc
          simp [hjob, hip, hsch, ht, hc, hw, StepRes.isCrash] at hnc
        | some wv =>
          simp [stepJob, stepDiag, sectionStep, hjob, hip, hsch, ht, hc, hw, h5]

/-- Witness for C1 at the example tallies: host A is classified
never-responded and is in neither of the other two sets. -/
theorem claim_c1_witness :
    "A" ∈ (categorize_ips exSucc exFail).1 ∧
    ("A" ∉ (categorize_ips exSucc exFail).2.1 ∧
     "A" ∉ (categorize_ips exSucc exFail).2.2) :=
  ⟨by decide, (claim_c1_classifier_partition exSucc exFail "A").1 (by decide)⟩

/-- Witness for C2 at the example lines: the batch yields one result per
distinct host. -/
theorem claim_c2_witness :
    (runBatch (read_ip_list exLines) false 3 1 exOracle).length
      = (read_ip_list exLines).length :=
  (claim_c2_one_result_per_host exLines false 3 1 exOracle).1

/-- Witness for C3: a timed-out probe of a concrete host is recorded as
unreachable with detail Timeout. -/
theorem claim_c3_witness :
    ping_host "10.0.0.1" false 3 1 SubprocOutcome.timedout
      = ("10.0.0.1", false, "Timeout") :=
  (claim_c3_probe_failure_recovered "10.0.0.1" false 3 1).1

/-- Witness for C4: with every probe timing out, the one-shot run exits
with code 1. -/
theorem claim_c4_witness :
    exitCode (runBatch (read_ip_list exLines) false 3 1 exOracle) = 1 :=
  ((claim_c4_exit_code exLines false 3 1 exOracle).2).mpr
    ⟨"10.0.0.1", by decide, by decide⟩

/-- Witness for C5 at the example tallies: host C is in the sometimes set,
its total is positive and its rate is the guarded quotient. -/
theorem claim_c5_witness :
    "C" ∈ (categorize_ips exSucc exFail).2.2 ∧
    (0 < pyGet exSucc "C" + pyGet exFail "C" ∧
      success_rate (pyGet exSucc "C") (pyGet exFail "C")
        = (pyGet exSucc "C" : ℚ) /
            ((pyGet exSucc "C" : ℚ) + (pyGet exFail "C" : ℚ)) * 100) :=
  ⟨by decide, (claim_c5_success_rate exSucc exFail "C" (by decide)).1⟩

/-- Witness for C8 at the example configuration: the load outcome is fully
determined by the per-section jobs and diagnostics. -/
theorem claim_c8_witness :
    add_jobs_from_config exCronOk exSections =
      (if (exSections.filterMap (stepJob exCronOk)).length = 0 then
        LoadOutcome.exitedNonzero 1 (exSections.filterMap (stepDiag exCronOk))
      else
        LoadOutcome.started (exSections.filterMap (stepJob exCronOk))
          (exSections.filterMap (stepDiag exCronOk))) :=
  (claim_c8_config_load exCronOk exSections (by decide)).1

/-- Witness for C9: the comment-stripped first line of the example file
survives into the returned host list. -/
theorem claim_c9_witness :
    "10.0.0.1" ∈ read_ip_list exLines :=
  ((claim_c9_read_ip_list exLines).2.1 "10.0.0.1").mpr (by decide)

/-- Witness for C10: a probe whose primitive raised still reports the
submitted host. -/
theorem claim_c10_witness :
    (ping_host "10.0.0.1" true 3 1 (SubprocOutcome.raised "boom")).1 = "10.0.0.1" :=
  claim_c10_probe_reports_submitted_host "10.0.0.1" true 3 1 (SubprocOutcome.raised "boom")
